import Mathlib

/-!
Shallow embedding of the shape-abstraction layer of `src/model.py` (a facade
over the pybox2d physics engine), together with theorems checking the
natural-language specification against it.

Conventions of the embedding:
* Python floats are modelled as exact rationals (`ℚ`).
* The module-level constants `PPM` and `SCREEN_HEIGHT` come from `settings.py`,
  a file of this repository that is not under `src/`; the spec fixes only that
  `PPM` is "a fixed positive scale factor, e.g. 20".  They are therefore passed
  as explicit parameters (`PPM`, `H`) to every function that reads them.
* Python exceptions (`AttributeError` on attribute access of `None`,
  `AssertionError`, `KeyError` from `set.remove`) are modelled with `Except`.
* Python object attributes mutated in place are modelled by state passing:
  a setter returns the updated object.
-/

/-- Python exceptions that the embedded code can raise. -/
inductive PyError where
  | attributeError
  | assertionError
  | keyError
deriving DecidableEq, Repr

/-- Two-component vector of rationals, standing for a Python pair of floats. -/
abbrev Vec : Type := ℚ × ℚ

/-- RGBA colour tuple. -/
abbrev Colour : Type := ℕ × ℕ × ℕ × ℕ

/-- Source `model.py` line 11: `pixels_to_box2d(p) = p / PPM`. -/
def pixels_to_box2d (PPM p : ℚ) : ℚ := p / PPM

/-- Source `model.py` lines 14-18: componentwise division by `PPM`. -/
def pixels_to_box2d_v (PPM : ℚ) (v : Vec) : Vec :=
  (v.1 / PPM, v.2 / PPM)

/-- Source `model.py` lines 20-21: `flip_y_position(v) = (v[0], SCREEN_HEIGHT - v[1])`;
the screen height is the parameter `H`. -/
def flip_y_position (H : ℚ) (v : Vec) : Vec := (v.1, H - v.2)

/-- Source `model.py` lines 23-24: `flip_y_velocity(v) = (v[0], -v[1])`. -/
def flip_y_velocity (v : Vec) : Vec := (v.1, -v.2)

/-- Source `model.py` lines 26-30: componentwise multiplication by `PPM`. -/
def box2d_to_pixels_v (PPM : ℚ) (v : Vec) : Vec :=
  (v.1 * PPM, v.2 * PPM)

/-- Source `model.py` lines 32-33: `box2d_to_pixels(p) = p * PPM`. -/
def box2d_to_pixels (PPM p : ℚ) : ℚ := p * PPM

/-- State of `KeyQuery` (`model.py` lines 36-68): three key sets and the last
mouse relative motion (`None` initially). -/
structure KeyQuery where
  keys_down : Finset ℕ
  keys_pressed : Finset ℕ
  keys_released : Finset ℕ
  mouse_relative : Option (ℤ × ℤ)
deriving DecidableEq

/-- The state built by `KeyQuery.__init__`. -/
def KeyQuery.init : KeyQuery := ⟨∅, ∅, ∅, none⟩

/-- Source `KeyQuery.mark_pressed`: adds the key to `keys_down` and `keys_pressed`. -/
def KeyQuery.mark_pressed (q : KeyQuery) (k : ℕ) : KeyQuery :=
  { q with keys_down := insert k q.keys_down, keys_pressed := insert k q.keys_pressed }

/-- Source `KeyQuery.mark_released`: `self.keys_down.remove(key)` raises
`KeyError` when the key is absent, otherwise removes it and adds the key to
`keys_released`. -/
def KeyQuery.mark_released (q : KeyQuery) (k : ℕ) : Except PyError KeyQuery :=
  if k ∈ q.keys_down then
    Except.ok { q with keys_down := q.keys_down.erase k,
                       keys_released := insert k q.keys_released }
  else
    Except.error PyError.keyError

/-- Source `KeyQuery.clear_pressed`: clears `keys_pressed` and `keys_released`. -/
def KeyQuery.clear_pressed (q : KeyQuery) : KeyQuery :=
  { q with keys_pressed := ∅, keys_released := ∅ }

/-- Source `KeyQuery.mark_mouse_relative`. -/
def KeyQuery.mark_mouse_relative (q : KeyQuery) (r : ℤ × ℤ) : KeyQuery :=
  { q with mouse_relative := some r }

/-- The state-mutating operations of `KeyQuery`, used to describe the states
reachable from `KeyQuery.init`. -/
inductive KQOp where
  | press (k : ℕ)
  | release (k : ℕ)
  | clearPressed
  | mouseRel (r : ℤ × ℤ)
deriving DecidableEq, Repr

/-- Runs a sequence of `KeyQuery` operations; `none` when some `mark_released`
raises `KeyError`. -/
def runOps : List KQOp → KeyQuery → Option KeyQuery
  | [], q => some q
  | KQOp.press k :: ops, q => runOps ops (q.mark_pressed k)
  | KQOp.release k :: ops, q =>
      match q.mark_released k with
      | Except.ok q' => runOps ops q'
      | Except.error _ => none
  | KQOp.clearPressed :: ops, q => runOps ops q.clear_pressed
  | KQOp.mouseRel r :: ops, q => runOps ops (q.mark_mouse_relative r)

/-- Whether key `k` has been marked pressed and not released since, over a
trace of operations, starting from the Boolean `b` (whether it is down at the
start of the trace). -/
def pressed_unreleased (k : ℕ) : List KQOp → Bool → Bool
  | [], b => b
  | KQOp.press k' :: ops, b => pressed_unreleased k ops (if k' = k then true else b)
  | KQOp.release k' :: ops, b => pressed_unreleased k ops (if k' = k then false else b)
  | KQOp.clearPressed :: ops, b => pressed_unreleased k ops b
  | KQOp.mouseRel _ :: ops, b => pressed_unreleased k ops b

/-- Source `model.py` lines 161-170: `CollisionInfo` value object holding
density, friction, restitution (Python defaults `1, 0, 1`). -/
structure CollisionInfo where
  density : ℚ
  friction : ℚ
  restitution : ℚ
deriving DecidableEq

/-- Source `model.py` lines 173-176: the three collision classifications. -/
inductive CollisionType where
  | Static
  | Kinematic
  | Dynamic
deriving DecidableEq

/-- Engine-side geometry descriptors built by the constructors:
`b2CircleShape(radius=..)`, `b2PolygonShape(box=..)` (half-extents),
`b2PolygonShape(vertices=..)`, `b2EdgeShape(vertices=..)`. -/
inductive B2Shape where
  | circle (radius : ℚ)
  | polygonBox (halfExtents : Vec)
  | polygon (vertices : List Vec)
  | edge (vertices : List Vec)
deriving DecidableEq

/-- Engine-side fixture: geometry plus material data (density, friction,
restitution), the collision filter (category and mask bitmasks), and the
user-data slot (`true` once `model.py` has attached the owning shape's
back-reference to it). -/
structure Fixture where
  shape : B2Shape
  density : ℚ
  friction : ℚ
  restitution : ℚ
  categoryBits : ℕ
  maskBits : ℕ
  userData : Bool
deriving DecidableEq

/-- Engine-side rigid body: classification, transform state and the list of
fixtures the engine created on it. -/
structure Body where
  bodyType : CollisionType
  position : Vec
  linearVelocity : Vec
  angularVelocity : ℚ
  fixtures : List Fixture
deriving DecidableEq

/-- Engine behaviour of the physics collaborator (pybox2d, outside this
repository, consumed as a black box per the spec): a fixture created from a
bare shape (the `shapes=` keyword of `CreateStaticBody` / `CreateKinematicBody`)
carries the engine's default fixture values — density `0`, friction `0.2`,
restitution `0` — and the default collision filter, category `0x0001`
collidable with every category (`0xFFFF`); no user data is attached yet. -/
def defaultFixture (s : B2Shape) : Fixture :=
  ⟨s, 0, 1/5, 0, 1, 65535, false⟩

/-- Engine call `world.CreateStaticBody(position=.., shapes=..)`: a static body
at the given position whose single fixture is created by the engine from the
supplied shape with default fixture values.  When the caller supplies no
position (the `Line` constructors), the engine default `(0, 0)` is used. -/
def createStaticBody (position : Vec) (shape : B2Shape) : Body :=
  ⟨CollisionType.Static, position, (0, 0), 0, [defaultFixture shape]⟩

/-- Engine call `world.CreateKinematicBody(position=.., shapes=..)`, analogous
to `createStaticBody`. -/
def createKinematicBody (position : Vec) (shape : B2Shape) : Body :=
  ⟨CollisionType.Kinematic, position, (0, 0), 0, [defaultFixture shape]⟩

/-- Engine call `world.CreateDynamicBody(position=.., fixtures=b2FixtureDef(..))`:
a dynamic body whose single fixture carries the supplied geometry and the
supplied density, friction and restitution, with the default collision
filter. -/
def createDynamicBody (position : Vec) (shape : B2Shape) (info : CollisionInfo) : Body :=
  ⟨CollisionType.Dynamic, position, (0, 0), 0,
    [⟨shape, info.density, info.friction, info.restitution, 1, 65535, false⟩]⟩

/-- State of a constructed shape object.  The source spreads this over the
classes `__Circle`, `__Rectangle`, `__Line`; the abstract `Shape` accessors
only touch `self.body` (and its fixtures), so one record serves all three.
`is_secretly_polygon` and `polygon_shape` exist only on `__Line` (`false` /
`none` elsewhere). -/
structure PyShape where
  colour : Colour
  shape : B2Shape
  body : Body
  is_secretly_polygon : Bool
  polygon_shape : Option B2Shape
deriving DecidableEq

/-- Source `Shape.b2_get_body` (`model.py` lines 76-77). -/
def b2_get_body (self : PyShape) : Body := self.body

/-- Source `Shape.b2_get_fixture` (`model.py` lines 82-87): asserts that the
body carries exactly one fixture, then returns it. -/
def b2_get_fixture (self : PyShape) : Except PyError Fixture :=
  match (b2_get_body self).fixtures with
  | [f] => Except.ok f
  | _ => Except.error PyError.assertionError

/-- Replaces the single fixture of the shape's body; raises the
`b2_get_fixture` assertion if the body does not carry exactly one fixture.
Models the write-back of a mutation done through `self.b2_get_fixture()`. -/
def update_fixture (self : PyShape) (g : Fixture → Fixture) : Except PyError PyShape :=
  match (b2_get_body self).fixtures with
  | [f] => Except.ok { self with body := { self.body with fixtures := [g f] } }
  | _ => Except.error PyError.assertionError

/-- Final statement of every constructor
(`self.b2_get_fixture().userData = self`, `model.py` lines 220, 324, 428):
asserts the single fixture and attaches the owning-shape back-reference. -/
def attach_user_data (self : PyShape) : Except PyError PyShape :=
  update_fixture self (fun f => { f with userData := true })

/-- Source `Shape.set_collision_group` (`model.py` lines 89-93): overwrites the
fixture's filter with the two `Flag` values (category bits from `my_group`,
mask bits from `can_collide_with_groups`). -/
def set_collision_group (self : PyShape) (my_group can_collide_with_groups : ℕ) :
    Except PyError PyShape :=
  update_fixture self
    (fun f => { f with categoryBits := my_group, maskBits := can_collide_with_groups })

/-- Source `Shape.get_position` (`model.py` lines 95-96). -/
def get_position (PPM H : ℚ) (self : PyShape) : Vec :=
  flip_y_position H (box2d_to_pixels_v PPM (b2_get_body self).position)

/-- Source `Shape.set_position` (`model.py` lines 98-100). -/
def set_position (PPM H : ℚ) (self : PyShape) (position : Vec) : PyShape :=
  { self with body := { self.body with position := pixels_to_box2d_v PPM (flip_y_position H position) } }

/-- Source `Shape.get_velocity` (`model.py` lines 102-103). -/
def get_velocity (PPM : ℚ) (self : PyShape) : Vec :=
  box2d_to_pixels_v PPM (flip_y_velocity (b2_get_body self).linearVelocity)

/-- Source `Shape.set_velocity` (`model.py` lines 105-109), pixels per second. -/
def set_velocity (PPM : ℚ) (self : PyShape) (velocity : Vec) : PyShape :=
  { self with body := { self.body with linearVelocity := pixels_to_box2d_v PPM (flip_y_velocity velocity) } }

/-- Source `Shape.get_angular_velocity` (`model.py` lines 111-112). -/
def get_angular_velocity (self : PyShape) : ℚ :=
  (b2_get_body self).angularVelocity

/-- Source `Shape.set_angular_velocity` (`model.py` lines 114-116). -/
def set_angular_velocity (self : PyShape) (angular_velocity : ℚ) : PyShape :=
  { self with body := { self.body with angularVelocity := angular_velocity } }

/-- Source `Shape.get_density` (`model.py` lines 118-119): reads the single
fixture, raising the `b2_get_fixture` assertion when it is not unique. -/
def get_density (self : PyShape) : Except PyError ℚ :=
  Except.map Fixture.density (b2_get_fixture self)

/-- Source `Shape.set_density` (`model.py` lines 121-123). -/
def set_density (self : PyShape) (density : ℚ) : Except PyError PyShape :=
  update_fixture self (fun f => { f with density := density })

/-- Source `Shape.get_friction` (`model.py` lines 125-126). -/
def get_friction (self : PyShape) : Except PyError ℚ :=
  Except.map Fixture.friction (b2_get_fixture self)

/-- Source `Shape.set_friction` (`model.py` lines 128-130). -/
def set_friction (self : PyShape) (friction : ℚ) : Except PyError PyShape :=
  update_fixture self (fun f => { f with friction := friction })

/-- Source `Shape.get_restitution` (`model.py` lines 132-133). -/
def get_restitution (self : PyShape) : Except PyError ℚ :=
  Except.map Fixture.restitution (b2_get_fixture self)

/-- Source `Shape.set_restitution` (`model.py` lines 135-136); the updated
state is returned (the Python method mutates in place and returns `None`). -/
def set_restitution (self : PyShape) (restitution : ℚ) : Except PyError PyShape :=
  update_fixture self (fun f => { f with restitution := restitution })

/-- Source `__Circle.__init__` (`model.py` lines 179-220).  The `Dynamic`
branch evaluates `collision_info.density` and the other attributes to build the
`b2FixtureDef`; a `None` `collision_info` raises `AttributeError` there, before
any body is created.  An unrecognised classification would hit the trailing
`assert False`, unreachable here because `CollisionType` is closed.  The final
step attaches the user-data back-reference through `b2_get_fixture`. -/
def mkCircle (PPM H : ℚ) (position : Vec) (radius : ℚ)
    (collision_type : CollisionType) (collision_info : Option CollisionInfo)
    (colour : Colour) : Except PyError PyShape :=
  let position := pixels_to_box2d_v PPM (flip_y_position H position)
  let radius := pixels_to_box2d PPM radius
  let shape := B2Shape.circle radius
  match collision_type with
  | CollisionType.Static =>
      attach_user_data ⟨colour, shape, createStaticBody position shape, false, none⟩
  | CollisionType.Kinematic =>
      attach_user_data ⟨colour, shape, createKinematicBody position shape, false, none⟩
  | CollisionType.Dynamic =>
      match collision_info with
      | none => Except.error PyError.attributeError
      | some info =>
          attach_user_data ⟨colour, shape, createDynamicBody position shape info, false, none⟩

/-- Source `__Rectangle.__init__` (`model.py` lines 275-324): the pixel
top-left `position` is moved to the centre by adding half of `size`, then
flipped and scaled; `size` is halved and scaled to half-extents for
`b2PolygonShape(box=..)`.  The `Dynamic` branch raises `AttributeError` on a
`None` `collision_info` exactly as in `mkCircle`. -/
def mkRectangle (PPM H : ℚ) (position size : Vec)
    (collision_type : CollisionType) (collision_info : Option CollisionInfo)
    (colour : Colour) : Except PyError PyShape :=
  let position := (position.1 + size.1 / 2, position.2 + size.2 / 2)
  let position := pixels_to_box2d_v PPM (flip_y_position H position)
  let size := (size.1 / 2, size.2 / 2)
  let size := pixels_to_box2d_v PPM size
  let shape := B2Shape.polygonBox size
  match collision_type with
  | CollisionType.Static =>
      attach_user_data ⟨colour, shape, createStaticBody position shape, false, none⟩
  | CollisionType.Kinematic =>
      attach_user_data ⟨colour, shape, createKinematicBody position shape, false, none⟩
  | CollisionType.Dynamic =>
      match collision_info with
      | none => Except.error PyError.attributeError
      | some info =>
          attach_user_data ⟨colour, shape, createDynamicBody position shape info, false, none⟩

/-- Source `__Line.__init__` (`model.py` lines 377-428): both endpoints (and
their one-pixel-lower copies `point_a2`, `point_b2`) are flipped and scaled;
`self.shape` is always the edge through the two converted endpoints.
Static/Kinematic bodies are created from that edge with no position argument;
the `Dynamic` branch first asserts `collision_info is not None`, then builds
the thin quadrilateral `b2PolygonShape(vertices=[point_a, point_a2, point_b,
point_b2])` and creates the dynamic body from it with the supplied material
data. -/
def mkLine (PPM H : ℚ) (point_a point_b : Vec)
    (collision_type : CollisionType) (collision_info : Option CollisionInfo)
    (colour : Colour) : Except PyError PyShape :=
  let pa := pixels_to_box2d_v PPM (flip_y_position H point_a)
  let pb := pixels_to_box2d_v PPM (flip_y_position H point_b)
  let pa2 := pixels_to_box2d_v PPM (flip_y_position H (point_a.1, point_a.2 + 1))
  let pb2 := pixels_to_box2d_v PPM (flip_y_position H (point_b.1, point_b.2 + 1))
  let shape := B2Shape.edge [pa, pb]
  match collision_type with
  | CollisionType.Static =>
      attach_user_data ⟨colour, shape, createStaticBody (0, 0) shape, false, none⟩
  | CollisionType.Kinematic =>
      attach_user_data ⟨colour, shape, createKinematicBody (0, 0) shape, false, none⟩
  | CollisionType.Dynamic =>
      match collision_info with
      | none => Except.error PyError.assertionError
      | some info =>
          let polygon_shape := B2Shape.polygon [pa, pa2, pb, pb2]
          attach_user_data
            ⟨colour, shape, createDynamicBody (0, 0) polygon_shape info, true, some polygon_shape⟩

/-- State of `ShapeRegistry` (`model.py` lines 139-158) together with the side
effects it has sent to its physics world.  Shapes are tracked by identity;
`ℕ` identifiers stand for the Python object identities, and each shape's
identifier also names its (exclusively owned) engine body.  `destroyCalls`
records every `world.DestroyBody` call the registry has issued, with
multiplicity. -/
structure RegState where
  shapes : Finset ℕ
  destroyCalls : Multiset ℕ
deriving DecidableEq

/-- Source `ShapeRegistry.add` (`model.py` lines 144-149): inserts each shape
of the list into the tracked set. -/
def RegState.add (r : RegState) (newShapes : List ℕ) : RegState :=
  ⟨newShapes.foldl (fun s x => insert x s) r.shapes, r.destroyCalls⟩

/-- Source `ShapeRegistry.delete` (`model.py` lines 151-154): when the shape is
tracked, remove it from the set and issue one `world.DestroyBody` call for its
body; otherwise do nothing. -/
def RegState.delete (r : RegState) (s : ℕ) : RegState :=
  if s ∈ r.shapes then
    ⟨r.shapes.erase s, s ::ₘ r.destroyCalls⟩
  else
    r

/-- Engine contact filtering, modelled from the spec: "two fixtures generate a
contact only if each one's category bit is present in the other's
collidable-with mask" (Box2D's symmetric `b2ShouldCollide` test, evaluated by
the engine collaborator outside this repository). -/
def shouldCollide (a b : Fixture) : Bool :=
  (a.categoryBits &&& b.maskBits != 0) && (b.categoryBits &&& a.maskBits != 0)

/-- Reads the (category, mask) filter pair of a shape's single fixture. -/
def filter_of (self : PyShape) : Except PyError (ℕ × ℕ) :=
  Except.map (fun f => (f.categoryBits, f.maskBits)) (b2_get_fixture self)

/-- Whether the engine's filter test lets the two shapes' fixtures produce a
touching contact event. -/
def contact_possible (s t : PyShape) : Except PyError Bool :=
  Except.bind (b2_get_fixture s) (fun fs =>
    Except.map (fun ft => shouldCollide fs ft) (b2_get_fixture t))

/-- Whether every density/friction/restitution getter and setter of the shape
succeeds (none of them raises the missing-fixture assertion). -/
def material_accessors_ok (s : PyShape) : Bool :=
  (get_density s).isOk && (set_density s 1).isOk &&
  (get_friction s).isOk && (set_friction s 1).isOk &&
  (get_restitution s).isOk && (set_restitution s 1).isOk

/-- The engine geometry and material data of a shape's single fixture. -/
def fixture_geometry_material (s : PyShape) : Except PyError (B2Shape × ℚ × ℚ × ℚ) :=
  Except.map (fun f => (f.shape, f.density, f.friction, f.restitution)) (b2_get_fixture s)

/-- Concrete shape: the result of
`mkRectangle 20 600 (100, 350) (200, 50) Static none white` — a static
rectangle at pixel top-left `(100, 350)` with pixel size `(200, 50)` under
`PPM = 20`, `SCREEN_HEIGHT = 600`. -/
def sampleRect : PyShape :=
  ⟨(255, 255, 255, 255), B2Shape.polygonBox (5, 5/4),
   ⟨CollisionType.Static, (10, 45/4), (0, 0), 0,
    [⟨B2Shape.polygonBox (5, 5/4), 0, 1/5, 0, 1, 65535, true⟩]⟩,
   false, none⟩

/-- Concrete dynamic circle with the default collision filter. -/
def sampleCircle : PyShape :=
  ⟨(255, 255, 255, 255), B2Shape.circle 1,
   ⟨CollisionType.Dynamic, (0, 0), (0, 0), 0,
    [⟨B2Shape.circle 1, 1, 0, 1, 1, 65535, true⟩]⟩,
   false, none⟩

/-- The shape `sampleCircle` after `set_collision_group` with category `2`,
mask `1` (the demo's `SecondGroup` / `Default` values). -/
def sampleCircleCat2Mask1 : PyShape :=
  ⟨(255, 255, 255, 255), B2Shape.circle 1,
   ⟨CollisionType.Dynamic, (0, 0), (0, 0), 0,
    [⟨B2Shape.circle 1, 1, 0, 1, 2, 1, true⟩]⟩,
   false, none⟩

/-- The shape `sampleCircle` after `set_collision_group` with category `4`,
mask `1` (the demo's `ThirdGroup` / `Default` values). -/
def sampleCircleCat4Mask1 : PyShape :=
  ⟨(255, 255, 255, 255), B2Shape.circle 1,
   ⟨CollisionType.Dynamic, (0, 0), (0, 0), 0,
    [⟨B2Shape.circle 1, 1, 0, 1, 4, 1, true⟩]⟩,
   false, none⟩

/-- Helper: the getter composition flip-then-scale inverts the setter
composition scale-then-flip on positions, for any nonzero scale factor. -/
theorem flip_scale_round_trip (PPM H : ℚ) (hp : PPM ≠ 0) (p : Vec) :
    flip_y_position H (box2d_to_pixels_v PPM (pixels_to_box2d_v PPM (flip_y_position H p))) = p := by
  obtain ⟨x, y⟩ := p
  simp only [flip_y_position, box2d_to_pixels_v, pixels_to_box2d_v, Prod.mk.injEq]
  constructor
  · field_simp
  · field_simp

/-- Helper: the velocity getter composition inverts the velocity setter
composition, for any nonzero scale factor. -/
theorem flip_scale_velocity_round_trip (PPM : ℚ) (hp : PPM ≠ 0) (v : Vec) :
    box2d_to_pixels_v PPM (flip_y_velocity (pixels_to_box2d_v PPM (flip_y_velocity v))) = v := by
  obtain ⟨x, y⟩ := v
  simp only [flip_y_velocity, box2d_to_pixels_v, pixels_to_box2d_v, Prod.mk.injEq]
  constructor
  · field_simp
  · field_simp

/-- Helper: a successful `update_fixture` means the body carried exactly one
fixture, and the result replaces it by the updated fixture. -/
theorem update_fixture_ok (s : PyShape) (g : Fixture → Fixture) (s' : PyShape)
    (h : update_fixture s g = Except.ok s') :
    ∃ f, (b2_get_body s).fixtures = [f]
      ∧ s' = { s with body := { s.body with fixtures := [g f] } } := by
  rw [update_fixture] at h
  rcases hf : (b2_get_body s).fixtures with _ | ⟨f, _ | ⟨f2, rest⟩⟩ <;> rw [hf] at h
  · simp at h
  · simp only [Except.ok.injEq] at h
    exact ⟨f, rfl, h.symm⟩
  · simp at h

/-- Helper: over any successfully executed trace of `KeyQuery` operations, a
key is in `keys_down` exactly when the trace ends with it pressed and not yet
released (relative to its membership at the start of the trace). -/
theorem runOps_keys_down (k : ℕ) (ops : List KQOp) :
    ∀ q0 q : KeyQuery, runOps ops q0 = some q →
      (k ∈ q.keys_down ↔ pressed_unreleased k ops (decide (k ∈ q0.keys_down)) = true) := by
  induction ops with
  | nil =>
      intro q0 q h
      simp [runOps] at h
      subst h
      simp [pressed_unreleased]
  | cons op ops ih =>
      intro q0 q h
      cases op with
      | press k' =>
          have hmem := ih (q0.mark_pressed k') q h
          rw [hmem, pressed_unreleased]
          have harg : decide (k ∈ (q0.mark_pressed k').keys_down)
              = (if k' = k then true else decide (k ∈ q0.keys_down)) := by
            by_cases hk : k' = k
            · subst hk; simp [KeyQuery.mark_pressed]
            · simp [KeyQuery.mark_pressed, hk, Finset.mem_insert, Ne.symm hk]
          rw [harg]
      | release k' =>
          by_cases hk : k' ∈ q0.keys_down
          · rw [runOps, KeyQuery.mark_released, if_pos hk] at h
            have hmem := ih _ q h
            rw [hmem, pressed_unreleased]
            have harg : decide (k ∈ (q0.keys_down.erase k'))
                = (if k' = k then false else decide (k ∈ q0.keys_down)) := by
              by_cases hkk : k' = k
              · subst hkk; simp
              · simp [Finset.mem_erase, hkk, Ne.symm hkk]
            rw [harg]
          · rw [runOps, KeyQuery.mark_released, if_neg hk] at h
            cases h
      | clearPressed =>
          have hmem := ih q0.clear_pressed q h
          rw [hmem]
          rfl
      | mouseRel r =>
          have hmem := ih (q0.mark_mouse_relative r) q h
          rw [hmem]
          rfl

/-- Helper: `sampleRect` is exactly what the rectangle constructor builds for
pixel top-left `(100, 350)`, pixel size `(200, 50)`, `PPM = 20`,
`SCREEN_HEIGHT = 600`, classification `Static`. -/
theorem sampleRect_is_constructed_aux :
    mkRectangle 20 600 (100, 350) (200, 50) CollisionType.Static none (255, 255, 255, 255)
      = Except.ok sampleRect := by
  simp [mkRectangle, attach_user_data, update_fixture, createStaticBody, defaultFixture,
        b2_get_body, pixels_to_box2d_v, flip_y_position, sampleRect]
  norm_num

/-- Claim C1, counterexample: a Rectangle constructed at pixel position
`(100, 350)` with pixel size `(200, 50)` (here Static, `PPM = 20`,
`SCREEN_HEIGHT = 600`) does NOT report `get_position() = (100, 350)`
immediately after construction — the top-left-to-center conversion done at
construction is not inverted by `get_position`, which returns the centre
`(200, 375)`. -/
theorem rectangle_get_position_not_top_left :
    Except.map (get_position 20 600)
        (mkRectangle 20 600 (100, 350) (200, 50) CollisionType.Static none (255, 255, 255, 255))
      ≠ Except.ok (100, 350) := by
  simp [mkRectangle, get_position, attach_user_data, update_fixture, b2_get_body,
        createStaticBody, defaultFixture, pixels_to_box2d_v, box2d_to_pixels_v,
        flip_y_position, Except.map]

/-- Claim C1 (amended): for every Rectangle constructed at pixel top-left
position `p` with pixel size `s` (any classification, any nonzero `PPM`, any
screen height), `get_position()` immediately after construction returns the
pixel CENTRE `p + s/2` — `(200, 375)` in the spec's scenario — because the
flip-and-scale pair round-trips exactly but the top-left-to-centre offset
added at construction is never subtracted back. -/
theorem rectangle_get_position_returns_center (PPM H : ℚ) (hp : PPM ≠ 0) (p s : Vec)
    (ct : CollisionType) (ci : Option CollisionInfo) (c : Colour) (sh : PyShape)
    (h : mkRectangle PPM H p s ct ci c = Except.ok sh) :
    get_position PPM H sh = (p.1 + s.1 / 2, p.2 + s.2 / 2) := by
  have hpos : sh.body.position = pixels_to_box2d_v PPM (flip_y_position H (p.1 + s.1 / 2, p.2 + s.2 / 2)) := by
    cases ct with
    | Static =>
        simp [mkRectangle, attach_user_data, update_fixture, createStaticBody, defaultFixture, b2_get_body] at h
        subst h; rfl
    | Kinematic =>
        simp [mkRectangle, attach_user_data, update_fixture, createKinematicBody, defaultFixture, b2_get_body] at h
        subst h; rfl
    | Dynamic =>
        cases ci with
        | none => simp [mkRectangle] at h
        | some info =>
            simp [mkRectangle, attach_user_data, update_fixture, createDynamicBody, b2_get_body] at h
            subst h; rfl
  show flip_y_position H (box2d_to_pixels_v PPM (b2_get_body sh).position) = _
  rw [show (b2_get_body sh).position = sh.body.position from rfl, hpos]
  exact flip_scale_round_trip PPM H hp _

/-- Claim C1 (amended), witness: the spec's scenario rectangle reports its
centre `(200, 375)`. -/
theorem rectangle_get_position_returns_center_witness :
    get_position 20 600 sampleRect = (200, 375) := by
  have h := rectangle_get_position_returns_center 20 600 (by norm_num) (100, 350) (200, 50)
    CollisionType.Static none (255, 255, 255, 255) sampleRect sampleRect_is_constructed_aux
  rw [h]
  norm_num

/-- Claim C2: deleting a shape twice leaves the registry's tracked set and the
recorded world-side destruction calls identical to deleting it once, the
engine's body-destruction call is issued at most once for the shape's body, and
deleting an untracked shape changes nothing and raises no error. -/
theorem registry_delete_idempotent (r : RegState) (s : ℕ) :
    (r.delete s).delete s = r.delete s
    ∧ Multiset.count s ((r.delete s).delete s).destroyCalls ≤ Multiset.count s r.destroyCalls + 1
    ∧ (s ∉ r.shapes → r.delete s = r) := by
  by_cases hs : s ∈ r.shapes
  · have h1 : r.delete s = ⟨r.shapes.erase s, s ::ₘ r.destroyCalls⟩ := by
      rw [RegState.delete, if_pos hs]
    have h2 : (r.delete s).delete s = r.delete s := by
      rw [h1, RegState.delete, if_neg (by simp)]
    refine ⟨h2, ?_, fun habs => absurd hs habs⟩
    rw [h2, h1]
    simp
  · have h1 : r.delete s = r := by rw [RegState.delete, if_neg hs]
    exact ⟨by rw [h1, h1], by rw [h1, h1]; omega, fun _ => h1⟩

/-- Claim C2, witness: deleting shape `0` from an empty registry leaves it
unchanged. -/
theorem registry_delete_idempotent_witness :
    RegState.delete ⟨∅, 0⟩ 0 = (⟨∅, 0⟩ : RegState) :=
  (registry_delete_idempotent ⟨∅, 0⟩ 0).2.2 (by simp)

/-- Claim C3: for each geometry kind, constructing a shape with collision type
Dynamic and a null CollisionInfo always fails at construction time (Circle and
Rectangle with `AttributeError` from evaluating `collision_info.density`, Line
with its explicit assertion), and no shape object is produced. -/
theorem dynamic_requires_collision_info (PPM H : ℚ) (p a b s : Vec) (r : ℚ) (c : Colour) :
    mkCircle PPM H p r CollisionType.Dynamic none c = Except.error PyError.attributeError
    ∧ mkRectangle PPM H p s CollisionType.Dynamic none c = Except.error PyError.attributeError
    ∧ mkLine PPM H a b CollisionType.Dynamic none c = Except.error PyError.assertionError :=
  ⟨rfl, rfl, rfl⟩

/-- Claim C4, counterexample: on a Static circle, a material-property getter
does NOT fail — the engine created one default fixture from the `shapes=`
argument, and `get_density` succeeds, returning the engine default `0`. -/
theorem static_material_getter_succeeds_cex :
    Except.bind (mkCircle 20 600 (0, 0) 5 CollisionType.Static none (255, 255, 255, 255)) get_density
      = Except.ok 0 := by
  simp [mkCircle, get_density, attach_user_data, update_fixture, b2_get_body, createStaticBody,
        defaultFixture, Except.map, Except.bind, b2_get_fixture]

/-- Claim C4 (amended): every Static or Kinematic shape of any geometry kind
carries exactly one fixture, created by the engine from the shape geometry with
default material values, so every density/friction/restitution getter and
setter on it succeeds rather than failing.  (Construction itself would already
trip the single-fixture assertion otherwise, since it runs
`self.b2_get_fixture().userData = self` for every classification.) -/
theorem static_kinematic_material_accessors_succeed (PPM H : ℚ) (p a b sz : Vec) (r : ℚ)
    (c : Colour) (ct : CollisionType) (hct : ct ≠ CollisionType.Dynamic) :
    Except.map material_accessors_ok (mkCircle PPM H p r ct none c) = Except.ok true
    ∧ Except.map material_accessors_ok (mkRectangle PPM H p sz ct none c) = Except.ok true
    ∧ Except.map material_accessors_ok (mkLine PPM H a b ct none c) = Except.ok true := by
  cases ct with
  | Static => exact ⟨rfl, rfl, rfl⟩
  | Kinematic => exact ⟨rfl, rfl, rfl⟩
  | Dynamic => exact absurd rfl hct

/-- Claim C4 (amended), witness: all material accessors succeed on a concrete
Kinematic circle. -/
theorem static_kinematic_material_accessors_succeed_witness :
    Except.map material_accessors_ok
        (mkCircle 20 600 (0, 0) 5 CollisionType.Kinematic none (255, 255, 255, 255))
      = Except.ok true :=
  (static_kinematic_material_accessors_succeed 20 600 (0, 0) (0, 0) (0, 0) (0, 0) 5
    (255, 255, 255, 255) CollisionType.Kinematic (by simp)).1

/-- Claim C5, counterexample: the spec's composition
`toPixels(flipY(toPhysical(flipY(P, H)), H))` does not return `P`; at
`P = (0, 0)`, `H = 600`, `PPM = 20` it returns `(0, 11400)` (the skew is
`H * (PPM - 1)`, far outside any floating-point tolerance). -/
theorem spec_round_trip_formula_fails :
    box2d_to_pixels_v 20 (flip_y_position 600 (pixels_to_box2d_v 20 (flip_y_position 600 (0, 0)))) ≠ (0, 0) := by
  simp [box2d_to_pixels_v, flip_y_position, pixels_to_box2d_v]
  norm_num

/-- Claim C5 (amended): the round trip holds — exactly, over exact
arithmetic — when the outer flip is applied after scaling back to pixels, as
the code's getter does: `flipY(toPixels(toPhysical(flipY(P, H))), H) = P` for
every pixel position `P`, screen height `H` and nonzero `PPM`.  The spec's
ordering (scaling applied after the outer flip) instead yields
`(x, PPM*H - H + y)`. -/
theorem pixel_round_trip_as_coded (PPM H : ℚ) (hp : PPM ≠ 0) (P : Vec) :
    flip_y_position H (box2d_to_pixels_v PPM (pixels_to_box2d_v PPM (flip_y_position H P))) = P :=
  flip_scale_round_trip PPM H hp P

/-- Claim C5 (amended), witness: the corrected composition round-trips
`(3, 7)` at `PPM = 20`, `H = 600`. -/
theorem pixel_round_trip_as_coded_witness :
    flip_y_position 600 (box2d_to_pixels_v 20 (pixels_to_box2d_v 20 (flip_y_position 600 (3, 7)))) = (3, 7) :=
  pixel_round_trip_as_coded 20 600 (by norm_num) (3, 7)

/-- Claim C6: for every Rectangle constructed with pixel top-left `p` and
pixel size `s`, the engine body's position is the pixel centre `p + s/2`
flipped in y then scaled by `1/PPM`, and the engine geometry's half-extents
are `s/2` scaled by `1/PPM` (both as stored in `self.shape` and as carried by
the body's fixture). -/
theorem rectangle_construction_geometry (PPM H : ℚ) (p s : Vec)
    (ct : CollisionType) (ci : Option CollisionInfo) (c : Colour) (sh : PyShape)
    (h : mkRectangle PPM H p s ct ci c = Except.ok sh) :
    sh.body.position = pixels_to_box2d_v PPM (flip_y_position H (p.1 + s.1 / 2, p.2 + s.2 / 2))
    ∧ sh.shape = B2Shape.polygonBox (pixels_to_box2d_v PPM (s.1 / 2, s.2 / 2))
    ∧ Except.map Fixture.shape (b2_get_fixture sh)
        = Except.ok (B2Shape.polygonBox (pixels_to_box2d_v PPM (s.1 / 2, s.2 / 2))) := by
  cases ct with
  | Static =>
      simp [mkRectangle, attach_user_data, update_fixture, createStaticBody, defaultFixture, b2_get_body] at h
      subst h
      exact ⟨rfl, rfl, rfl⟩
  | Kinematic =>
      simp [mkRectangle, attach_user_data, update_fixture, createKinematicBody, defaultFixture, b2_get_body] at h
      subst h
      exact ⟨rfl, rfl, rfl⟩
  | Dynamic =>
      cases ci with
      | none => simp [mkRectangle] at h
      | some info =>
          simp [mkRectangle, attach_user_data, update_fixture, createDynamicBody, b2_get_body] at h
          subst h
          exact ⟨rfl, rfl, rfl⟩

/-- Claim C6, witness: the spec's scenario rectangle, with `PPM = 20` and
`SCREEN_HEIGHT = 600`, has body position `((100 + 100, 350 + 25)` flipped and
scaled`)` and half-extents `(100/20, 25/20)`. -/
theorem rectangle_construction_geometry_witness :
    sampleRect.body.position
        = pixels_to_box2d_v 20 (flip_y_position 600 ((100 : ℚ) + 200 / 2, (350 : ℚ) + 50 / 2))
    ∧ sampleRect.shape = B2Shape.polygonBox (pixels_to_box2d_v 20 ((200 : ℚ) / 2, (50 : ℚ) / 2))
    ∧ Except.map Fixture.shape (b2_get_fixture sampleRect)
        = Except.ok (B2Shape.polygonBox (pixels_to_box2d_v 20 ((200 : ℚ) / 2, (50 : ℚ) / 2))) :=
  rectangle_construction_geometry 20 600 (100, 350) (200, 50) CollisionType.Static none
    (255, 255, 255, 255) sampleRect sampleRect_is_constructed_aux

/-- Claim C7: a Line constructed Static or Kinematic carries as its engine
geometry a zero-thickness edge between the two converted endpoints, while a
Dynamic Line carries a quadrilateral polygon through the two converted
endpoints and their copies offset by one pixel in y, with the CollisionInfo's
density, friction and restitution as its fixture's material data. -/
theorem line_geometry (PPM H : ℚ) (a b : Vec) (info : CollisionInfo) (c : Colour) :
    Except.map Fixture.shape (Except.bind (mkLine PPM H a b CollisionType.Static none c) b2_get_fixture)
      = Except.ok (B2Shape.edge [pixels_to_box2d_v PPM (flip_y_position H a),
                                 pixels_to_box2d_v PPM (flip_y_position H b)])
    ∧ Except.map Fixture.shape (Except.bind (mkLine PPM H a b CollisionType.Kinematic none c) b2_get_fixture)
      = Except.ok (B2Shape.edge [pixels_to_box2d_v PPM (flip_y_position H a),
                                 pixels_to_box2d_v PPM (flip_y_position H b)])
    ∧ Except.bind (mkLine PPM H a b CollisionType.Dynamic (some info) c) fixture_geometry_material
      = Except.ok (B2Shape.polygon
          [pixels_to_box2d_v PPM (flip_y_position H a),
           pixels_to_box2d_v PPM (flip_y_position H (a.1, a.2 + 1)),
           pixels_to_box2d_v PPM (flip_y_position H b),
           pixels_to_box2d_v PPM (flip_y_position H (b.1, b.2 + 1))],
          info.density, info.friction, info.restitution) :=
  ⟨rfl, rfl, rfl⟩

/-- Claim C8: `set_collision_group` stores the first argument's value as the
fixture's category bits and the second's as its mask bits, and under the
engine's symmetric filter test two shapes whose category/mask pairs are
disjoint (the first shape's category shares no bit with the second's mask,
e.g. category `2` mask `1` against category `4` mask `1`) can never produce a
touching contact event. -/
theorem collision_group_storage_and_filtering (s t s' t' : PyShape) (gA mA gB mB : ℕ)
    (hs : set_collision_group s gA mA = Except.ok s')
    (ht : set_collision_group t gB mB = Except.ok t')
    (hd : gA &&& mB = 0) :
    filter_of s' = Except.ok (gA, mA)
    ∧ filter_of t' = Except.ok (gB, mB)
    ∧ contact_possible s' t' = Except.ok false := by
  obtain ⟨f, hf, hs'⟩ := update_fixture_ok _ _ _ hs
  obtain ⟨g, hg, ht'⟩ := update_fixture_ok _ _ _ ht
  subst hs'; subst ht'
  refine ⟨?_, ?_, ?_⟩
  · simp [filter_of, b2_get_fixture, b2_get_body, Except.map]
  · simp [filter_of, b2_get_fixture, b2_get_body, Except.map]
  · simp [contact_possible, b2_get_fixture, b2_get_body, shouldCollide, hd, Except.bind, Except.map]

/-- Claim C8, witness: shape A with category `2`, mask `1` and shape B with
category `4`, mask `1` store exactly those filter values and can never touch. -/
theorem collision_group_storage_and_filtering_witness :
    filter_of sampleCircleCat2Mask1 = Except.ok (2, 1)
    ∧ filter_of sampleCircleCat4Mask1 = Except.ok (4, 1)
    ∧ contact_possible sampleCircleCat2Mask1 sampleCircleCat4Mask1 = Except.ok false :=
  collision_group_storage_and_filtering sampleCircle sampleCircle
    sampleCircleCat2Mask1 sampleCircleCat4Mask1 2 1 4 1 rfl rfl rfl

/-- Claim C9: for every shape, pixel point and pixel velocity, with positive
`PPM`, `set_position` then `get_position` returns the point and `set_velocity`
then `get_velocity` returns the velocity, over exact arithmetic — each getter
applies the inverse conversion of its setter in the opposite order. -/
theorem set_get_position_velocity_round_trip (PPM H : ℚ) (hp : 0 < PPM)
    (s : PyShape) (p v : Vec) :
    get_position PPM H (set_position PPM H s p) = p
    ∧ get_velocity PPM (set_velocity PPM s v) = v := by
  have hne : PPM ≠ 0 := ne_of_gt hp
  constructor
  · show flip_y_position H (box2d_to_pixels_v PPM (pixels_to_box2d_v PPM (flip_y_position H p))) = p
    exact flip_scale_round_trip PPM H hne p
  · show box2d_to_pixels_v PPM (flip_y_velocity (pixels_to_box2d_v PPM (flip_y_velocity v))) = v
    exact flip_scale_velocity_round_trip PPM hne v

/-- Claim C9, witness: the round trips at `PPM = 20`, `H = 600` on a concrete
circle, point `(1, 2)` and velocity `(3, 4)`. -/
theorem set_get_position_velocity_round_trip_witness :
    get_position 20 600 (set_position 20 600 sampleCircle (1, 2)) = (1, 2)
    ∧ get_velocity 20 (set_velocity 20 sampleCircle (3, 4)) = (3, 4) :=
  set_get_position_velocity_round_trip 20 600 (by norm_num) sampleCircle (1, 2) (3, 4)

/-- Claim C10: in every state reachable by a trace of `KeyQuery` operations,
`mark_released k` on a key not in the down-set raises `KeyError` (set removal
of an absent element) rather than being a no-op, and `mark_released k`
succeeds exactly when `k` was previously marked pressed and not yet
released. -/
theorem mark_released_iff_pressed (ops : List KQOp) (q : KeyQuery) (k : ℕ)
    (h : runOps ops KeyQuery.init = some q) :
    (k ∉ q.keys_down → q.mark_released k = Except.error PyError.keyError)
    ∧ ((q.mark_released k).isOk = true ↔ pressed_unreleased k ops false = true) := by
  constructor
  · intro hk
    rw [KeyQuery.mark_released, if_neg hk]
  · have hmem := runOps_keys_down k ops KeyQuery.init q h
    have hinit : decide (k ∈ KeyQuery.init.keys_down) = false := by
      simp [KeyQuery.init]
    rw [hinit] at hmem
    rw [← hmem, KeyQuery.mark_released]
    by_cases hk : k ∈ q.keys_down
    · simp [hk, Except.isOk, Except.toBool]
    · simp [hk, Except.isOk, Except.toBool]

/-- Claim C10, witness: after the one-operation trace pressing key `3`,
releasing key `3` succeeds. -/
theorem mark_released_iff_pressed_witness :
    ((3 : ℕ) ∉ (KeyQuery.init.mark_pressed 3).keys_down →
        (KeyQuery.init.mark_pressed 3).mark_released 3 = Except.error PyError.keyError)
    ∧ (((KeyQuery.init.mark_pressed 3).mark_released 3).isOk = true
        ↔ pressed_unreleased 3 [KQOp.press 3] false = true) :=
  mark_released_iff_pressed [KQOp.press 3] (KeyQuery.init.mark_pressed 3) 3 rfl
